import Mathlib

/-!
Shallow embedding of the payment / webhook core of the fundraising backend
(`src/services/webhook.service.ts` plus the fee helpers it imports from
`src/config/config.ts`).

Conventions of the embedding:
- Amounts are JS numbers in minor currency units; they are modelled as
  rationals (`ℚ`) so that the "non-integer amount" condition is expressible.
- Fallible TypeScript code (functions that may `throw`) is modelled with
  `Except String` / `Except FeeError`; a `catch` block is a `match` on the
  `Except` value.
- The module-level mutable `events : Map<string, WebhookEvent>` becomes an
  explicit `EventMap` value threaded through the functions.
- Outbound Stripe SDK calls are modelled by a `Provider` record of response
  functions; each service operation additionally returns the list of
  provider calls it performed, so "no network I/O was attempted" is the
  statement that this trace is empty.
- JS truthiness of strings (`!sig`, `body.type || …`, `x || undefined`) is
  modelled by comparison with the empty string; an absent header is `none`.
-/

/-! ### Fee calculator -/

inductive FeeError where
  | InvalidAmount
deriving DecidableEq

/-- Processor fee schedule: 2.9% of gross (floored to integer minor units)
plus a 30-minor-unit flat fee. -/
def stripeFeeOf (g : ℤ) : ℤ := 29 * g / 1000 + 30

/-- Platform fee schedule: 5% of gross, floored to integer minor units. -/
def platformFeeOf (g : ℤ) : ℤ := 5 * g / 100

/-- Modelled from the spec: `calculateStripeFees` is imported from
`../config/config`, whose fee helpers are not among the repository sources.
Spec 4.1: processor fee = a fixed percentage (2.9% per the spec example)
of gross plus a fixed flat fee (30 minor units); the calculator must reject
non-positive or non-integer amounts with an InvalidAmount error. -/
def calculateStripeFees (g : ℚ) : Except FeeError ℤ :=
  if 0 < g ∧ g.den = 1 then .ok (stripeFeeOf g.num) else .error .InvalidAmount

/-- Modelled from the spec: `calculatePlatformFees` from `../config/config`
(not among the repository sources). Spec 4.1: platform fee = a separate
fixed percentage of gross (5% per the spec example); rejects non-positive
or non-integer amounts with InvalidAmount. -/
def calculatePlatformFees (g : ℚ) : Except FeeError ℤ :=
  if 0 < g ∧ g.den = 1 then .ok (platformFeeOf g.num) else .error .InvalidAmount

/-- Modelled from the spec: `calculateNetAmount` from `../config/config`
(not among the repository sources). Spec 4.1: net amount = gross minus
processor fee minus platform fee, floored to the nearest integer minor
unit; rejects non-positive or non-integer amounts with InvalidAmount. -/
def calculateNetAmount (g : ℚ) : Except FeeError ℤ :=
  if 0 < g ∧ g.den = 1 then .ok (g.num - stripeFeeOf g.num - platformFeeOf g.num)
  else .error .InvalidAmount

/-- The object literal returned by `StripeService.calculateFees`. -/
structure FeeBreakdown where
  stripeFees : ℤ
  platformFees : ℤ
  netAmount : ℤ
  totalFees : ℤ
deriving DecidableEq

/-- `StripeService.calculateFees` combines the three config helpers; the JS
object literal evaluates its fields in source order, so the first helper to
throw propagates. `totalFees` recomputes the two fee calls (both pure). -/
def StripeService.calculateFees (g : ℚ) : Except FeeError FeeBreakdown :=
  match calculateStripeFees g, calculatePlatformFees g, calculateNetAmount g with
  | .ok s, .ok p, .ok n =>
      .ok { stripeFees := s, platformFees := p, netAmount := n, totalFees := s + p }
  | .error e, _, _ => .error e
  | .ok _, .error e, _ => .error e
  | .ok _, .ok _, .error e => .error e

/-! ### Payment gateway adapter -/

structure PaymentIntentData where
  amount : ℚ
  currency : String
  description : Option String := none
  metadata : List (String × String) := []
deriving DecidableEq

structure PaymentResult where
  success : Bool
  paymentIntentId : Option String := none
  clientSecret : Option String := none
  error : Option String := none
deriving DecidableEq

/-- Payment-intent object as returned by the provider. -/
structure IntentObj where
  id : String
  client_secret : Option String
  status : String
deriving DecidableEq

structure RefundObj where
  payment_intent : String
deriving DecidableEq

/-- Request payload of `stripe.paymentIntents.create` as assembled by
`createPaymentIntent` (metadata spread plus the three bookkeeping keys,
kept as numbers here rather than their decimal strings). -/
structure CreateParams where
  amount : ℚ
  currency : String
  description : Option String
  metadata : List (String × String)
  originalAmount : ℚ
  stripeFees : ℤ
  platformFees : ℤ
deriving DecidableEq

/-- One outbound call to the payment provider. -/
inductive ProviderCall where
  | create (params : CreateParams)
  | retrieve (intentId : String)
  | refund (intentId : String) (amount : Option ℚ)
deriving DecidableEq

/-- Model of the external Stripe API: responses to the three outbound
calls; `Except.error` models a thrown SDK error carrying `error.message`. -/
structure Provider where
  create : CreateParams → Except String IntentObj
  retrieve : String → Except String IntentObj
  refund : String → Option ℚ → Except String RefundObj

/-- JS `error.message || fallback`. -/
def jsOrMessage (e fallback : String) : String := if e = "" then fallback else e

/-- JS `x || undefined` on a possibly-absent string. -/
def jsOrUndef (s : Option String) : Option String :=
  match s with
  | some v => if v = "" then none else some v
  | none => none

/-- The fixed failure result every operation returns in disabled mode. -/
def notConfiguredResult : PaymentResult :=
  { success := false, error := some "Stripe is not configured or enabled" }

/-- Module-level initialization: `stripe` is non-null iff
`config.stripe.enabled` holds and the secret key is not the development
placeholder. The constructed SDK client is abstracted by `client`. -/
def stripeInit (enabled : Bool) (secretKey : String) (client : Provider) : Option Provider :=
  if enabled ∧ secretKey ≠ "sk_test_development_key" then some client else none

def StripeService.isEnabled (enabled : Bool) (stripe : Option Provider) : Bool :=
  enabled && stripe.isSome

/-- `StripeService.createPaymentIntent`. Returns the `PaymentResult` and the
trace of provider calls performed. The fee helpers run inside the `try`
block, so a thrown InvalidAmount is caught and surfaced as a failure result
(`error.message` of the modelled InvalidAmount error is "InvalidAmount"). -/
def StripeService.createPaymentIntent (stripe : Option Provider) (data : PaymentIntentData) :
    PaymentResult × List ProviderCall :=
  match stripe with
  | none => (notConfiguredResult, [])
  | some p =>
    match calculateStripeFees data.amount with
    | .error _ => ({ success := false, error := some "InvalidAmount" }, [])
    | .ok fees =>
      match calculatePlatformFees data.amount with
      | .error _ => ({ success := false, error := some "InvalidAmount" }, [])
      | .ok platformFees =>
        let totalAmount : ℚ := data.amount + (fees : ℚ) + (platformFees : ℚ)
        let params : CreateParams :=
          { amount := totalAmount, currency := data.currency,
            description := data.description, metadata := data.metadata,
            originalAmount := data.amount, stripeFees := fees,
            platformFees := platformFees }
        match p.create params with
        | .ok intent =>
            ({ success := true, paymentIntentId := some intent.id,
               clientSecret := jsOrUndef intent.client_secret }, [.create params])
        | .error e =>
            ({ success := false,
               error := some (jsOrMessage e "Payment processing failed") },
             [.create params])

/-- `StripeService.confirmPayment`. -/
def StripeService.confirmPayment (stripe : Option Provider) (paymentIntentId : String) :
    PaymentResult × List ProviderCall :=
  match stripe with
  | none => (notConfiguredResult, [])
  | some p =>
    match p.retrieve paymentIntentId with
    | .ok intent =>
        if intent.status = "succeeded" then
          ({ success := true, paymentIntentId := some intent.id },
           [.retrieve paymentIntentId])
        else
          ({ success := false, error := some ("Payment status: " ++ intent.status) },
           [.retrieve paymentIntentId])
    | .error e =>
        ({ success := false,
           error := some (jsOrMessage e "Payment confirmation failed") },
         [.retrieve paymentIntentId])

/-- `StripeService.refundPayment`. -/
def StripeService.refundPayment (stripe : Option Provider) (paymentIntentId : String)
    (amount : Option ℚ) : PaymentResult × List ProviderCall :=
  match stripe with
  | none => (notConfiguredResult, [])
  | some p =>
    match p.refund paymentIntentId amount with
    | .ok refund =>
        ({ success := true, paymentIntentId := some refund.payment_intent },
         [.refund paymentIntentId amount])
    | .error e =>
        ({ success := false, error := some (jsOrMessage e "Refund failed") },
         [.refund paymentIntentId amount])

/-! ### Webhook processor -/

/-- A provider-side object (`event.data.object`); only the `id` field is
read by the handlers. -/
structure StripeObj where
  id : String
deriving DecidableEq

/-- The `data` field of an event; `object := none` models a JS `undefined`
`data.object` (e.g. the `{}` default of the development path). -/
structure EventData where
  object : Option StripeObj
deriving DecidableEq

structure WebhookEvent where
  id : String
  type : String
  data : EventData
  timestamp : Nat
  processed : Bool
deriving DecidableEq

/-- Parsed JSON body of the webhook POST. In the production path the code
casts it to `Stripe.Event` (id, type, data, created all present); in the
development path only `type` and `data` are read, with falsy values
defaulted (`type = ""` models an absent/falsy type, `data` with
`object := none` models an absent/empty data object). -/
structure WebhookBody where
  id : String
  type : String
  data : EventData
  created : Nat
deriving DecidableEq

/-- `handlePaymentSucceeded` reads `event.data.object.id` inside a template
literal: if `data.object` is undefined, the property access throws. -/
def WebhookService.handlePaymentSucceeded (event : WebhookEvent) : Except String Unit :=
  match event.data.object with
  | none => .error "Cannot read properties of undefined (reading id)"
  | some _ => .ok ()

def WebhookService.handlePaymentFailed (event : WebhookEvent) : Except String Unit :=
  match event.data.object with
  | none => .error "Cannot read properties of undefined (reading id)"
  | some _ => .ok ()

def WebhookService.handleChargeDispute (event : WebhookEvent) : Except String Unit :=
  match event.data.object with
  | none => .error "Cannot read properties of undefined (reading id)"
  | some _ => .ok ()

/-- One invocation of a per-event-type handler (the observable handler
side effect, for counting dispatches). -/
inductive HandlerCall where
  | paymentSucceeded (event : WebhookEvent)
  | paymentFailed (event : WebhookEvent)
  | chargeDispute (event : WebhookEvent)
deriving DecidableEq

/-- The `switch (event.type)` of `processWebhookEvent`: the handler result
together with the list of handler invocations (empty on the default
branch, which only logs). -/
def WebhookService.dispatch (event : WebhookEvent) : Except String Unit × List HandlerCall :=
  if event.type = "payment_intent.succeeded" then
    (WebhookService.handlePaymentSucceeded event, [.paymentSucceeded event])
  else if event.type = "payment_intent.payment_failed" then
    (WebhookService.handlePaymentFailed event, [.paymentFailed event])
  else if event.type = "charge.dispute.created" then
    (WebhookService.handleChargeDispute event, [.chargeDispute event])
  else (.ok (), [])

/-- Association list modelling the insertion-ordered `Map<string, WebhookEvent>`. -/
def getEntry : List (String × WebhookEvent) → String → Option WebhookEvent
  | [], _ => none
  | (k2, v2) :: rest, k => if k2 = k then some v2 else getEntry rest k

/-- JS `Map.set`: replace in place if the key is present, else append. -/
def setEntry : List (String × WebhookEvent) → String → WebhookEvent →
    List (String × WebhookEvent)
  | [], k, v => [(k, v)]
  | (k2, v2) :: rest, k, v =>
      if k2 = k then (k, v) :: rest else (k2, v2) :: setEntry rest k v

/-- The static `WebhookService.events` map. -/
structure EventMap where
  entries : List (String × WebhookEvent)
deriving DecidableEq

def EventMap.get (m : EventMap) (k : String) : Option WebhookEvent := getEntry m.entries k

def EventMap.set (m : EventMap) (k : String) (v : WebhookEvent) : EventMap :=
  ⟨setEntry m.entries k v⟩

def EventMap.empty : EventMap := ⟨[]⟩

/-- `processWebhookEvent`: dispatch by type; on handler success mark the
event processed and store it; on handler exception rethrow, leaving the
map unchanged. Returns the new map (or the error) and the handler trace. -/
def WebhookService.processWebhookEvent (events : EventMap) (event : WebhookEvent) :
    Except String EventMap × List HandlerCall :=
  let r := WebhookService.dispatch event
  match r.1 with
  | .error e => (.error e, r.2)
  | .ok _ => (.ok (EventMap.set events event.id { event with processed := true }), r.2)

/-- `simulateWebhookEvent` (development path): fresh uuid, defaulted
type/data, current time, processed false. -/
def WebhookService.simulateWebhookEvent (body : WebhookBody) (freshId : String)
    (now : Nat) : WebhookEvent :=
  { id := freshId,
    type := if body.type = "" then "payment_intent.succeeded" else body.type,
    data := body.data,
    timestamp := now,
    processed := false }

/-- `createWebhookEvent` (production path): fields taken from the
`Stripe.Event` body; `created` is seconds, the timestamp milliseconds. -/
def WebhookService.createWebhookEvent (body : WebhookBody) : WebhookEvent :=
  { id := body.id, type := body.type, data := body.data,
    timestamp := body.created * 1000, processed := false }

/-- The event `handleStripeWebhook` constructs from the request, by
environment. -/
def WebhookService.mkEvent (env freshId : String) (now : Nat) (body : WebhookBody) :
    WebhookEvent :=
  if env = "development" then WebhookService.simulateWebhookEvent body freshId now
  else WebhookService.createWebhookEvent body

/-- HTTP response of the webhook endpoint: `res.status(400).send(msg)` or
`res.json({received, eventId})`. -/
inductive HttpResponse where
  | badRequest (message : String)
  | jsonOk (received : Bool) (eventId : String)
deriving DecidableEq

/-- `handleStripeWebhook`: reject when the `stripe-signature` header is
absent (or falsy); otherwise build the event for the current environment,
process it, and answer `{received: true, eventId}`; a processing exception
is caught and answered with status 400. Returns response, new event map,
and the handler trace. -/
def WebhookService.handleStripeWebhook (env freshId : String) (now : Nat)
    (sig : Option String) (body : WebhookBody) (events : EventMap) :
    HttpResponse × EventMap × List HandlerCall :=
  match sig with
  | none => (.badRequest "Missing stripe-signature header", events, [])
  | some s =>
    if s = "" then (.badRequest "Missing stripe-signature header", events, [])
    else
      let event := WebhookService.mkEvent env freshId now body
      let pr := WebhookService.processWebhookEvent events event
      match pr.1 with
      | .error e => (.badRequest ("Webhook Error: " ++ e), events, pr.2)
      | .ok m2 => (.jsonOk true event.id, m2, pr.2)

def WebhookService.getEvent (events : EventMap) (eventId : String) : Option WebhookEvent :=
  EventMap.get events eventId

def WebhookService.getAllEvents (events : EventMap) : List WebhookEvent :=
  events.entries.map (fun p => p.2)

def WebhookService.getEventsByType (events : EventMap) (t : String) : List WebhookEvent :=
  (events.entries.map (fun p => p.2)).filter (fun e => e.type = t)

/-- Event maps reachable from the initially empty store by webhook
requests. -/
inductive Reachable : EventMap → Prop
  | init : Reachable EventMap.empty
  | step (env freshId : String) (now : Nat) (sig : Option String) (body : WebhookBody)
      (m : EventMap) : Reachable m →
      Reachable (WebhookService.handleStripeWebhook env freshId now sig body m).2.1

/-- Every stored event is marked processed. -/
def allProcessed (m : EventMap) : Prop := ∀ p ∈ m.entries, p.2.processed = true

deriving instance DecidableEq for Except

/-! ### Concrete fixtures used to evaluate the definitions -/

/-- A provider model whose calls all answer successfully. -/
def testProvider : Provider :=
  { create := fun _ =>
      .ok { id := "pi_1", client_secret := some "cs_1", status := "requires_payment_method" },
    retrieve := fun pid => .ok { id := pid, client_secret := none, status := "succeeded" },
    refund := fun pid _ => .ok { payment_intent := pid } }

def sampleIntentData : PaymentIntentData := { amount := 5000, currency := "usd" }

def zeroIntentData : PaymentIntentData := { amount := 0, currency := "usd" }

/-- First submission of provider event id "evt_1" (production path). -/
def c4Body1 : WebhookBody :=
  { id := "evt_1", type := "payment_intent.succeeded",
    data := { object := some { id := "pi_1" } }, created := 1 }

/-- Resubmission of the same event id with a later `created` second. -/
def c4Body2 : WebhookBody :=
  { id := "evt_1", type := "payment_intent.succeeded",
    data := { object := some { id := "pi_1" } }, created := 2 }

/-- Store after the first submission of "evt_1". -/
def c4State1 : EventMap :=
  (WebhookService.handleStripeWebhook "production" "uuid_1" 0 (some "t") c4Body1
    EventMap.empty).2.1

/-- Outcome of resubmitting event id "evt_1". -/
def c4Run2 : HttpResponse × EventMap × List HandlerCall :=
  WebhookService.handleStripeWebhook "production" "uuid_2" 0 (some "t") c4Body2 c4State1

/-- The event stored under "evt_1" after the first submission. -/
def c4Stored : WebhookEvent :=
  { id := "evt_1", type := "payment_intent.succeeded",
    data := { object := some { id := "pi_1" } }, timestamp := 1000, processed := true }

/-- A development-path body whose `data.object` is undefined, so the
payment-succeeded handler throws. -/
def c5Body : WebhookBody :=
  { id := "evt_9", type := "payment_intent.succeeded", data := { object := none },
    created := 0 }

/-- A body with an unrecognized event type. -/
def c6Body : WebhookBody :=
  { id := "evt_6", type := "foo.bar", data := { object := none }, created := 0 }

/-- A well-formed payment-succeeded body. -/
def c9Body : WebhookBody :=
  { id := "evt_3", type := "payment_intent.succeeded",
    data := { object := some { id := "pi_9" } }, created := 3 }

/-- A well-formed payment-succeeded body for the store-invariant run. -/
def c10Body : WebhookBody :=
  { id := "evt_5", type := "payment_intent.succeeded",
    data := { object := some { id := "pi_9" } }, created := 5 }

/-- A store reached by one successful development-path submission. -/
def c10State : EventMap :=
  (WebhookService.handleStripeWebhook "development" "e1" 7 (some "t") c10Body
    EventMap.empty).2.1

/-- The event stored in `c10State`. -/
def c10Event : WebhookEvent :=
  { id := "e1", type := "payment_intent.succeeded",
    data := { object := some { id := "pi_9" } }, timestamp := 7, processed := true }

/-! ### Helper lemmas -/

theorem getEntry_setEntry_self (l : List (String × WebhookEvent)) (k : String)
    (v : WebhookEvent) : getEntry (setEntry l k v) k = some v := by
  induction l with
  | nil => simp [setEntry, getEntry]
  | cons hd tl ih =>
    obtain ⟨k2, v2⟩ := hd
    by_cases hk : k2 = k
    · simp [setEntry, getEntry, hk]
    · simp [setEntry, getEntry, hk, ih]

theorem getEvent_set_self (m : EventMap) (k : String) (v : WebhookEvent) :
    WebhookService.getEvent (EventMap.set m k v) k = some v :=
  getEntry_setEntry_self m.entries k v

theorem mem_setEntry (l : List (String × WebhookEvent)) (k : String) (v : WebhookEvent) :
    ∀ x ∈ setEntry l k v, x = (k, v) ∨ x ∈ l := by
  induction l with
  | nil => simp [setEntry]
  | cons hd tl ih =>
    obtain ⟨k2, v2⟩ := hd
    intro x hx
    by_cases hk : k2 = k
    · simp only [setEntry, if_pos hk, List.mem_cons] at hx
      rcases hx with hx | hx
      · exact Or.inl hx
      · exact Or.inr (List.mem_cons_of_mem _ hx)
    · simp only [setEntry, if_neg hk, List.mem_cons] at hx
      rcases hx with hx | hx
      · exact Or.inr (hx ▸ List.mem_cons_self _ _)
      · rcases ih x hx with h | h
        · exact Or.inl h
        · exact Or.inr (List.mem_cons_of_mem _ h)

theorem allProcessed_set (m : EventMap) (k : String) (v : WebhookEvent)
    (h : allProcessed m) (hv : v.processed = true) : allProcessed (EventMap.set m k v) := by
  intro p hp
  rcases mem_setEntry m.entries k v p hp with rfl | hp2
  · exact hv
  · exact h p hp2

theorem getEntry_mem (l : List (String × WebhookEvent)) (k : String) (v : WebhookEvent)
    (h : getEntry l k = some v) : ∃ k2, (k2, v) ∈ l := by
  induction l with
  | nil => simp [getEntry] at h
  | cons hd tl ih =>
    obtain ⟨k2, v2⟩ := hd
    by_cases hk : k2 = k
    · simp only [getEntry, if_pos hk, Option.some.injEq] at h
      exact ⟨k2, by simp [h]⟩
    · simp only [getEntry, if_neg hk] at h
      rcases ih h with ⟨k3, hk3⟩
      exact ⟨k3, List.mem_cons_of_mem _ hk3⟩

theorem allProcessed_handleStripeWebhook (env freshId : String) (now : Nat)
    (sig : Option String) (body : WebhookBody) (m : EventMap) (h : allProcessed m) :
    allProcessed (WebhookService.handleStripeWebhook env freshId now sig body m).2.1 := by
  unfold WebhookService.handleStripeWebhook
  cases sig with
  | none => exact h
  | some s =>
    by_cases hs : s = ""
    · simpa [hs] using h
    · simp only [if_neg hs]
      unfold WebhookService.processWebhookEvent
      cases hd : (WebhookService.dispatch (WebhookService.mkEvent env freshId now body)).1 with
      | error e => simpa [hd] using h
      | ok u => simpa [hd] using allProcessed_set m _ _ h rfl

theorem reachable_allProcessed (m : EventMap) (h : Reachable m) : allProcessed m := by
  induction h with
  | init => intro p hp; simp [EventMap.empty] at hp
  | step env freshId now sig body m2 _ ih =>
    exact allProcessed_handleStripeWebhook env freshId now sig body m2 ih

theorem mkEvent_processed_false (env freshId : String) (now : Nat) (body : WebhookBody) :
    (WebhookService.mkEvent env freshId now body).processed = false := by
  unfold WebhookService.mkEvent WebhookService.simulateWebhookEvent
    WebhookService.createWebhookEvent
  split <;> rfl

/-! ### Claim theorems -/

/-- C1: for every gross amount g > 0 in integer minor units,
`StripeService.calculateFees` returns a breakdown whose processor fee,
platform fee, and net amount sum back to the gross amount. -/
theorem calculateFees_sum_eq_gross (g : ℚ) (hpos : 0 < g) (hden : g.den = 1) :
    ∃ fb : FeeBreakdown, StripeService.calculateFees g = .ok fb ∧
      fb.stripeFees + fb.platformFees + fb.netAmount = g.num := by
  have h : 0 < g ∧ g.den = 1 := ⟨hpos, hden⟩
  refine ⟨⟨stripeFeeOf g.num, platformFeeOf g.num,
    g.num - stripeFeeOf g.num - platformFeeOf g.num,
    stripeFeeOf g.num + platformFeeOf g.num⟩, ?_, by ring⟩
  simp [StripeService.calculateFees, calculateStripeFees, calculatePlatformFees,
    calculateNetAmount, h]

/-- Witness for C1 at gross amount 5000. -/
theorem calculateFees_sum_eq_gross_witness :
    0 < (5000 : ℚ) ∧ (5000 : ℚ).den = 1 ∧
      ∃ fb : FeeBreakdown, StripeService.calculateFees 5000 = .ok fb ∧
        fb.stripeFees + fb.platformFees + fb.netAmount = (5000 : ℚ).num :=
  ⟨by decide, by decide, calculateFees_sum_eq_gross 5000 (by decide) (by decide)⟩

/-- C2: for every positive integer gross amount, `createPaymentIntent`
sends the provider a create call whose amount is gross + processor fee +
platform fee; at gross 5000 the 2.9% + 30 schedule gives processor fee
175, the 5% platform schedule gives 250, and the total charge is 5425. -/
theorem createPaymentIntent_total_charge (p : Provider) (data : PaymentIntentData)
    (hpos : 0 < data.amount) (hden : data.amount.den = 1) :
    (∃ params : CreateParams,
      (StripeService.createPaymentIntent (some p) data).2 = [ProviderCall.create params] ∧
      params.stripeFees = stripeFeeOf data.amount.num ∧
      params.platformFees = platformFeeOf data.amount.num ∧
      params.originalAmount = data.amount ∧
      params.amount = data.amount + (params.stripeFees : ℚ) + (params.platformFees : ℚ)) ∧
    stripeFeeOf 5000 = 175 ∧ platformFeeOf 5000 = 250 ∧
    (5000 : ℤ) + stripeFeeOf 5000 + platformFeeOf 5000 = 5425 := by
  have h : 0 < data.amount ∧ data.amount.den = 1 := ⟨hpos, hden⟩
  refine ⟨?_, by decide, by decide, by decide⟩
  refine ⟨{ amount := data.amount + (stripeFeeOf data.amount.num : ℚ)
              + (platformFeeOf data.amount.num : ℚ),
            currency := data.currency, description := data.description,
            metadata := data.metadata, originalAmount := data.amount,
            stripeFees := stripeFeeOf data.amount.num,
            platformFees := platformFeeOf data.amount.num }, ?_, rfl, rfl, rfl, rfl⟩
  simp only [StripeService.createPaymentIntent, calculateStripeFees,
    calculatePlatformFees, if_pos h]
  cases hc : p.create _ <;> simp

/-- Witness for C2 at `{amount := 5000, currency := "usd"}`. -/
theorem createPaymentIntent_total_charge_witness :
    0 < sampleIntentData.amount ∧ sampleIntentData.amount.den = 1 ∧
      ((∃ params : CreateParams,
        (StripeService.createPaymentIntent (some testProvider) sampleIntentData).2 =
          [ProviderCall.create params] ∧
        params.stripeFees = stripeFeeOf sampleIntentData.amount.num ∧
        params.platformFees = platformFeeOf sampleIntentData.amount.num ∧
        params.originalAmount = sampleIntentData.amount ∧
        params.amount = sampleIntentData.amount + (params.stripeFees : ℚ)
          + (params.platformFees : ℚ)) ∧
      stripeFeeOf 5000 = 175 ∧ platformFeeOf 5000 = 250 ∧
      (5000 : ℤ) + stripeFeeOf 5000 + platformFeeOf 5000 = 5425) :=
  ⟨by decide, by decide,
    createPaymentIntent_total_charge testProvider sampleIntentData (by decide) (by decide)⟩

/-- C3: every non-positive or non-integer amount is rejected with
InvalidAmount by each fee helper and by `StripeService.calculateFees`, and
`createPaymentIntent` on such an amount returns a failure result without
performing any provider call. -/
theorem calculator_rejects_invalid_amount (g : ℚ) (h : ¬(0 < g ∧ g.den = 1)) :
    calculateStripeFees g = .error .InvalidAmount ∧
    calculatePlatformFees g = .error .InvalidAmount ∧
    calculateNetAmount g = .error .InvalidAmount ∧
    StripeService.calculateFees g = .error .InvalidAmount ∧
    ∀ (stripe : Option Provider) (data : PaymentIntentData), data.amount = g →
      (StripeService.createPaymentIntent stripe data).1.success = false ∧
      (StripeService.createPaymentIntent stripe data).2 = [] := by
  have h1 : calculateStripeFees g = .error .InvalidAmount := by
    simp [calculateStripeFees, h]
  have h2 : calculatePlatformFees g = .error .InvalidAmount := by
    simp [calculatePlatformFees, h]
  have h3 : calculateNetAmount g = .error .InvalidAmount := by
    simp [calculateNetAmount, h]
  refine ⟨h1, h2, h3, ?_, ?_⟩
  · simp [StripeService.calculateFees, h1]
  · rintro stripe data rfl
    cases stripe with
    | none => exact ⟨rfl, rfl⟩
    | some p => simp [StripeService.createPaymentIntent, h1]

/-- Witness for C3 at amount 0. -/
theorem calculator_rejects_invalid_amount_witness :
    ¬(0 < (0 : ℚ) ∧ (0 : ℚ).den = 1) ∧
      (calculateStripeFees 0 = .error .InvalidAmount ∧
       calculatePlatformFees 0 = .error .InvalidAmount ∧
       calculateNetAmount 0 = .error .InvalidAmount ∧
       StripeService.calculateFees 0 = .error .InvalidAmount ∧
       ∀ (stripe : Option Provider) (data : PaymentIntentData), data.amount = 0 →
         (StripeService.createPaymentIntent stripe data).1.success = false ∧
         (StripeService.createPaymentIntent stripe data).2 = []) :=
  ⟨by decide, calculator_rejects_invalid_amount 0 (by decide)⟩

/-- C4 counterexample: after "evt_1" is recorded, resubmitting a webhook
with the same id invokes the handler again (non-empty handler trace) and
replaces the stored event (its timestamp changes), so resubmission is not
a no-op. -/
theorem dedup_counterexample :
    WebhookService.getEvent c4State1 "evt_1" ≠ none ∧
    c4Run2.2.2 ≠ [] ∧
    WebhookService.getEvent c4Run2.2.1 "evt_1" ≠ WebhookService.getEvent c4State1 "evt_1" := by
  decide

/-- C4 amended: the processor records events by id with last-write-wins
overwrite; resubmitting an already-recorded id dispatches to the handler
exactly as a first submission would (same handler trace) and overwrites
the stored event with the newly processed one. -/
theorem resubmission_overwrites_and_reprocesses (events : EventMap) (ev old : WebhookEvent)
    (_hrec : WebhookService.getEvent events ev.id = some old)
    (hok : (WebhookService.dispatch ev).1 = .ok ()) :
    (WebhookService.processWebhookEvent events ev).2 = (WebhookService.dispatch ev).2 ∧
    (WebhookService.processWebhookEvent events ev).1 =
      .ok (EventMap.set events ev.id { ev with processed := true }) ∧
    WebhookService.getEvent (EventMap.set events ev.id { ev with processed := true }) ev.id =
      some { ev with processed := true } := by
  refine ⟨?_, ?_, getEvent_set_self events ev.id _⟩
  · simp [WebhookService.processWebhookEvent, hok]
  · simp [WebhookService.processWebhookEvent, hok]

/-- Witness for the amended C4: resubmitting "evt_1" over `c4State1`. -/
theorem resubmission_overwrites_and_reprocesses_witness :
    WebhookService.getEvent c4State1 (WebhookService.createWebhookEvent c4Body2).id =
      some c4Stored ∧
    ((WebhookService.processWebhookEvent c4State1 (WebhookService.createWebhookEvent c4Body2)).2 =
      (WebhookService.dispatch (WebhookService.createWebhookEvent c4Body2)).2 ∧
    (WebhookService.processWebhookEvent c4State1 (WebhookService.createWebhookEvent c4Body2)).1 =
      .ok (EventMap.set c4State1 (WebhookService.createWebhookEvent c4Body2).id
        { WebhookService.createWebhookEvent c4Body2 with processed := true }) ∧
    WebhookService.getEvent
        (EventMap.set c4State1 (WebhookService.createWebhookEvent c4Body2).id
          { WebhookService.createWebhookEvent c4Body2 with processed := true })
        (WebhookService.createWebhookEvent c4Body2).id =
      some { WebhookService.createWebhookEvent c4Body2 with processed := true }) :=
  ⟨by decide,
    resubmission_overwrites_and_reprocesses c4State1
      (WebhookService.createWebhookEvent c4Body2) c4Stored (by decide) (by decide)⟩

/-- C5: when the per-type handler of the constructed event throws, the
webhook endpoint answers with status 400 ("Webhook Error: …"), the event
store is unchanged (so no entry becomes processed for that id), and the
event value itself still has processed = false. -/
theorem handler_failure_leaves_event_unprocessed (env freshId : String) (now : Nat)
    (s : String) (hs : s ≠ "") (body : WebhookBody) (events : EventMap) (msg : String)
    (hthrow : (WebhookService.dispatch (WebhookService.mkEvent env freshId now body)).1 =
      .error msg) :
    (WebhookService.mkEvent env freshId now body).processed = false ∧
    WebhookService.handleStripeWebhook env freshId now (some s) body events =
      (.badRequest ("Webhook Error: " ++ msg), events,
        (WebhookService.dispatch (WebhookService.mkEvent env freshId now body)).2) := by
  refine ⟨mkEvent_processed_false env freshId now body, ?_⟩
  simp [WebhookService.handleStripeWebhook, hs, WebhookService.processWebhookEvent, hthrow]

/-- Witness for C5: a development-path event whose `data.object` is
undefined makes the payment-succeeded handler throw. -/
theorem handler_failure_leaves_event_unprocessed_witness :
    "sig_1" ≠ "" ∧
    (WebhookService.dispatch (WebhookService.mkEvent "development" "e9" 4 c5Body)).1 =
      .error "Cannot read properties of undefined (reading id)" ∧
    ((WebhookService.mkEvent "development" "e9" 4 c5Body).processed = false ∧
    WebhookService.handleStripeWebhook "development" "e9" 4 (some "sig_1") c5Body
        EventMap.empty =
      (.badRequest ("Webhook Error: " ++ "Cannot read properties of undefined (reading id)"),
        EventMap.empty,
        (WebhookService.dispatch (WebhookService.mkEvent "development" "e9" 4 c5Body)).2)) :=
  ⟨by decide, by decide,
    handler_failure_leaves_event_unprocessed "development" "e9" 4 "sig_1" (by decide)
      c5Body EventMap.empty "Cannot read properties of undefined (reading id)" (by decide)⟩

/-- C6: an event whose type matches none of the three handled types is
accepted: the endpoint answers received = true, the event is stored with
processed = true, and no handler is invoked. -/
theorem unknown_type_accepted (env freshId : String) (now : Nat) (s : String) (hs : s ≠ "")
    (body : WebhookBody) (events : EventMap)
    (h1 : (WebhookService.mkEvent env freshId now body).type ≠ "payment_intent.succeeded")
    (h2 : (WebhookService.mkEvent env freshId now body).type ≠ "payment_intent.payment_failed")
    (h3 : (WebhookService.mkEvent env freshId now body).type ≠ "charge.dispute.created") :
    WebhookService.handleStripeWebhook env freshId now (some s) body events =
      (.jsonOk true (WebhookService.mkEvent env freshId now body).id,
        EventMap.set events (WebhookService.mkEvent env freshId now body).id
          { WebhookService.mkEvent env freshId now body with processed := true },
        []) := by
  have hd : WebhookService.dispatch (WebhookService.mkEvent env freshId now body) =
      (.ok (), []) := by
    simp [WebhookService.dispatch, h1, h2, h3]
  simp [WebhookService.handleStripeWebhook, hs, WebhookService.processWebhookEvent, hd]

/-- Witness for C6: submitting a "foo.bar" event. -/
theorem unknown_type_accepted_witness :
    "sig_1" ≠ "" ∧
    (WebhookService.mkEvent "development" "e6" 2 c6Body).type ≠ "payment_intent.succeeded" ∧
    (WebhookService.mkEvent "development" "e6" 2 c6Body).type ≠
      "payment_intent.payment_failed" ∧
    (WebhookService.mkEvent "development" "e6" 2 c6Body).type ≠ "charge.dispute.created" ∧
    WebhookService.handleStripeWebhook "development" "e6" 2 (some "sig_1") c6Body
        EventMap.empty =
      (.jsonOk true (WebhookService.mkEvent "development" "e6" 2 c6Body).id,
        EventMap.set EventMap.empty (WebhookService.mkEvent "development" "e6" 2 c6Body).id
          { WebhookService.mkEvent "development" "e6" 2 c6Body with processed := true },
        []) :=
  ⟨by decide, by decide, by decide, by decide,
    unknown_type_accepted "development" "e6" 2 "sig_1" (by decide) c6Body EventMap.empty
      (by decide) (by decide) (by decide)⟩

/-- C7: with no valid credentials the `stripe` client is null; then
`createPaymentIntent`, `confirmPayment`, and `refundPayment` all return the
fixed "not configured" failure result with an empty provider-call trace,
and `isEnabled` reports false. -/
theorem disabled_mode_short_circuits (enabled : Bool) (secretKey : String) (client : Provider)
    (h : enabled = false ∨ secretKey = "sk_test_development_key") :
    stripeInit enabled secretKey client = none ∧
    StripeService.isEnabled enabled (stripeInit enabled secretKey client) = false ∧
    ∀ (data : PaymentIntentData) (pid : String) (amt : Option ℚ),
      StripeService.createPaymentIntent (stripeInit enabled secretKey client) data =
        (notConfiguredResult, []) ∧
      StripeService.confirmPayment (stripeInit enabled secretKey client) pid =
        (notConfiguredResult, []) ∧
      StripeService.refundPayment (stripeInit enabled secretKey client) pid amt =
        (notConfiguredResult, []) := by
  have hn : stripeInit enabled secretKey client = none := by
    rcases h with h | h <;> simp [stripeInit, h]
  refine ⟨hn, ?_, ?_⟩
  · simp [StripeService.isEnabled, hn]
  · intro data pid amt
    rw [hn]
    exact ⟨rfl, rfl, rfl⟩

/-- Witness for C7: the development placeholder key leaves the client null. -/
theorem disabled_mode_short_circuits_witness :
    ((true : Bool) = false ∨ "sk_test_development_key" = "sk_test_development_key") ∧
    (stripeInit true "sk_test_development_key" testProvider = none ∧
    StripeService.isEnabled true (stripeInit true "sk_test_development_key" testProvider) =
      false ∧
    ∀ (data : PaymentIntentData) (pid : String) (amt : Option ℚ),
      StripeService.createPaymentIntent
          (stripeInit true "sk_test_development_key" testProvider) data =
        (notConfiguredResult, []) ∧
      StripeService.confirmPayment
          (stripeInit true "sk_test_development_key" testProvider) pid =
        (notConfiguredResult, []) ∧
      StripeService.refundPayment
          (stripeInit true "sk_test_development_key" testProvider) pid amt =
        (notConfiguredResult, [])) :=
  ⟨Or.inr rfl, disabled_mode_short_circuits true "sk_test_development_key" testProvider
    (Or.inr rfl)⟩

/-- C8: when the provider reports the intent, `confirmPayment` succeeds iff
the reported status is "succeeded"; any other status yields a failure
result whose message embeds that status. -/
theorem confirmPayment_succeeds_iff_status_succeeded (p : Provider) (pid : String)
    (intent : IntentObj) (h : p.retrieve pid = .ok intent) :
    ((StripeService.confirmPayment (some p) pid).1.success = true ↔
      intent.status = "succeeded") ∧
    (intent.status = "succeeded" →
      (StripeService.confirmPayment (some p) pid).1 =
        { success := true, paymentIntentId := some intent.id }) ∧
    (intent.status ≠ "succeeded" →
      (StripeService.confirmPayment (some p) pid).1 =
        { success := false, error := some ("Payment status: " ++ intent.status) }) := by
  by_cases hst : intent.status = "succeeded" <;>
    simp [StripeService.confirmPayment, h, hst]

/-- Witness for C8 with a provider reporting status "succeeded". -/
theorem confirmPayment_succeeds_iff_status_succeeded_witness :
    testProvider.retrieve "pi_1" =
      .ok { id := "pi_1", client_secret := none, status := "succeeded" } ∧
    (((StripeService.confirmPayment (some testProvider) "pi_1").1.success = true ↔
      ({ id := "pi_1", client_secret := none, status := "succeeded" } : IntentObj).status =
        "succeeded") ∧
    (({ id := "pi_1", client_secret := none, status := "succeeded" } : IntentObj).status =
        "succeeded" →
      (StripeService.confirmPayment (some testProvider) "pi_1").1 =
        { success := true, paymentIntentId := some "pi_1" }) ∧
    (({ id := "pi_1", client_secret := none, status := "succeeded" } : IntentObj).status ≠
        "succeeded" →
      (StripeService.confirmPayment (some testProvider) "pi_1").1 =
        { success := false, error := some ("Payment status: " ++ "succeeded") })) :=
  ⟨rfl, confirmPayment_succeeds_iff_status_succeeded testProvider "pi_1"
    { id := "pi_1", client_secret := none, status := "succeeded" } rfl⟩

/-- C9: a request without the stripe-signature header is answered 400 with
no processing (store and handler trace untouched); a request whose
processing succeeds is answered `{received := true, eventId}`, where
eventId is the key under which the processed event is stored. -/
theorem webhook_http_responses (env freshId : String) (now : Nat) (body : WebhookBody)
    (events : EventMap) :
    WebhookService.handleStripeWebhook env freshId now none body events =
      (.badRequest "Missing stripe-signature header", events, []) ∧
    ∀ s : String, s ≠ "" →
      (WebhookService.dispatch (WebhookService.mkEvent env freshId now body)).1 = .ok () →
      WebhookService.handleStripeWebhook env freshId now (some s) body events =
        (.jsonOk true (WebhookService.mkEvent env freshId now body).id,
          EventMap.set events (WebhookService.mkEvent env freshId now body).id
            { WebhookService.mkEvent env freshId now body with processed := true },
          (WebhookService.dispatch (WebhookService.mkEvent env freshId now body)).2) ∧
      WebhookService.getEvent
          (EventMap.set events (WebhookService.mkEvent env freshId now body).id
            { WebhookService.mkEvent env freshId now body with processed := true })
          (WebhookService.mkEvent env freshId now body).id =
        some { WebhookService.mkEvent env freshId now body with processed := true } := by
  refine ⟨rfl, ?_⟩
  intro s hs hok
  refine ⟨?_, getEvent_set_self events _ _⟩
  simp [WebhookService.handleStripeWebhook, hs, WebhookService.processWebhookEvent, hok]

/-- Witness for C9: a submission with the header present and one without. -/
theorem webhook_http_responses_witness :
    (WebhookService.handleStripeWebhook "development" "e3" 9 none c9Body EventMap.empty =
      (.badRequest "Missing stripe-signature header", EventMap.empty, [])) ∧
    (WebhookService.handleStripeWebhook "development" "e3" 9 (some "sig_1") c9Body
        EventMap.empty =
      (.jsonOk true (WebhookService.mkEvent "development" "e3" 9 c9Body).id,
        EventMap.set EventMap.empty (WebhookService.mkEvent "development" "e3" 9 c9Body).id
          { WebhookService.mkEvent "development" "e3" 9 c9Body with processed := true },
        (WebhookService.dispatch (WebhookService.mkEvent "development" "e3" 9 c9Body)).2) ∧
      WebhookService.getEvent
          (EventMap.set EventMap.empty
            (WebhookService.mkEvent "development" "e3" 9 c9Body).id
            { WebhookService.mkEvent "development" "e3" 9 c9Body with processed := true })
          (WebhookService.mkEvent "development" "e3" 9 c9Body).id =
        some { WebhookService.mkEvent "development" "e3" 9 c9Body with processed := true }) :=
  ⟨(webhook_http_responses "development" "e3" 9 c9Body EventMap.empty).1,
    (webhook_http_responses "development" "e3" 9 c9Body EventMap.empty).2 "sig_1"
      (by decide) (by decide)⟩

/-- C10: every event map reachable from the empty store holds only events
with processed = true, hence `getEvent`, `getAllEvents`, and
`getEventsByType` only ever return processed events. -/
theorem event_store_all_processed (m : EventMap) (h : Reachable m) :
    (∀ eventId ev, WebhookService.getEvent m eventId = some ev → ev.processed = true) ∧
    (∀ ev ∈ WebhookService.getAllEvents m, ev.processed = true) ∧
    (∀ t ev, ev ∈ WebhookService.getEventsByType m t → ev.processed = true) := by
  have hall : allProcessed m := reachable_allProcessed m h
  refine ⟨?_, ?_, ?_⟩
  · intro eventId ev hget
    rcases getEntry_mem m.entries eventId ev hget with ⟨k2, hk2⟩
    exact hall (k2, ev) hk2
  · intro ev hev
    rcases List.mem_map.mp hev with ⟨p, hp, rfl⟩
    exact hall p hp
  · intro t ev hev
    have hev2 : ev ∈ WebhookService.getAllEvents m := List.mem_of_mem_filter hev
    rcases List.mem_map.mp hev2 with ⟨p, hp, rfl⟩
    exact hall p hp

/-- Witness for C10 on a store reached by one successful submission. -/
theorem event_store_all_processed_witness :
    WebhookService.getEvent c10State "e1" = some c10Event ∧ c10Event.processed = true :=
  ⟨by decide,
    (event_store_all_processed c10State
      (Reachable.step "development" "e1" 7 (some "t") c10Body EventMap.empty
        Reachable.init)).1 "e1" c10Event (by decide)⟩
